import Mathlib

/-!
Verification of the `mcp-weather` server (`src/server.py`).

The server exposes two tools, `get_alerts` and `get_forecast`, both thin
wrappers over a transport helper `make_nws_request`.  We embed the Python
functions shallowly:

* JSON payloads become the inductive `Json`; Python `d[k]`, `d.get(k, dflt)`,
  `k in d`, truthiness, `for`-iteration and `xs[:5]` become small executable
  helpers that raise (return `Except.error`) exactly where Python raises.
* An unhandled Python exception is `Except.error msg`; a returned value is
  `Except.ok v`.
* The network is a fixed snapshot `W : String → Fetch` giving, per URL, the
  outcome of the single HTTP GET the transport helper performs: either a
  transport-level exception, or a response with a status code and the result
  of JSON-parsing its body (`none` = parse failure raises).
* Python floats appear only as pass-through coordinate values and URL
  components; no claim depends on fractional values, so latitude/longitude
  are modelled as `Int`.
-/

/-- JSON values, as produced by Python's `json` decoding. -/
inductive Json where
  | null : Json
  | bool : Bool → Json
  | num : Int → Json
  | str : String → Json
  | arr : List Json → Json
  | obj : List (String × Json) → Json

/-- Python dict lookup on the field list of a JSON object (`d[k]` success
case, `k in d`, `d.get(k, ...)` all go through this; first binding wins —
Python's `json` decoding keeps one binding per key). -/
def lookupKey : List (String × Json) → String → Option Json
  | [], _ => none
  | (k', v) :: rest, k => if k' = k then some v else lookupKey rest k

namespace Json

/-- Python truthiness of a decoded JSON value (`bool(x)`):
`None`, `False`, `0`, `""`, `[]` and `{}` are falsy. -/
def truthy : Json → Bool
  | .null => false
  | .bool b => b
  | .num n => n != 0
  | .str s => s != ""
  | .arr xs => !xs.isEmpty
  | .obj fs => !fs.isEmpty

/-- Python `x[k]` for a string key `k`: dict lookup, `KeyError` when the key
is absent, `TypeError` when `x` is not a dict (lists and strings are not
subscriptable by strings). -/
def index (j : Json) (k : String) : Except String Json :=
  match j with
  | .obj fs =>
    match lookupKey fs k with
    | some v => .ok v
    | none => .error ("KeyError: " ++ k)
  | _ => .error ("TypeError: value not subscriptable by string " ++ k)

/-- Python `x.get(k, dflt)`: defined on dicts only (`AttributeError`
otherwise); returns the stored value, or `dflt` when the key is absent. -/
def get (j : Json) (k : String) (dflt : Json) : Except String Json :=
  match j with
  | .obj fs => .ok ((lookupKey fs k).getD dflt)
  | _ => .error "AttributeError: value has no attribute get"

/-- Python `k in x` for a string `k`: key test on dicts, element test on
lists (`==` against a non-string element is `False`), substring test on
strings, `TypeError` otherwise. -/
def hasMember (j : Json) (k : String) : Except String Bool :=
  match j with
  | .obj fs => .ok (lookupKey fs k).isSome
  | .arr xs => .ok (xs.any (fun x => match x with | .str s => s == k | _ => false))
  | .str s => .ok (decide (k.toList <:+: s.toList))
  | _ => .error "TypeError: argument of this type is not iterable"

/-- Python `for`-iteration: lists yield their elements, dicts their keys,
strings their one-character substrings; other values raise `TypeError`. -/
def iterItems : Json → Except String (List Json)
  | .arr xs => .ok xs
  | .obj fs => .ok (fs.map (fun kv => .str kv.1))
  | .str s => .ok (s.toList.map (fun c => .str (String.singleton c)))
  | _ => .error "TypeError: value is not iterable"

/-- Python `x[:5]`: list and string slices; other values raise `TypeError`. -/
def slice5 : Json → Except String Json
  | .arr xs => .ok (.arr (xs.take 5))
  | .str s => .ok (.str (String.mk (s.toList.take 5)))
  | _ => .error "TypeError: value does not support slicing"

end Json

/-- `NWS_API_BASE` constant of `server.py`. -/
def NWS_API_BASE : String := "https://api.weather.gov"

/-- `USER_AGENT` constant of `server.py`. -/
def USER_AGENT : String := "weather-app/1.0"

/-- The headers `make_nws_request` sends (they do not influence the model's
observable behaviour, recorded for fidelity). -/
def requestHeaders : List (String × String) :=
  [("User-Agent", USER_AGENT), ("Accept", "application/geo+json")]

/-- Outcome of the one `client.get(url, ...)` a call to the transport helper
performs, under a fixed upstream snapshot:
* `netFail` — the GET itself raised (connect error, timeout, non-string URL …);
* `resp status body` — an HTTP response arrived with the given status code,
  `body` being the result of JSON-parsing it (`none`: `.json()` raises). -/
inductive Fetch where
  | netFail : Fetch
  | resp : Nat → Option Json → Fetch

/-- httpx `response.is_success`: a 2xx status.  `raise_for_status` raises
exactly when this is false. -/
def isSuccessStatus (s : Nat) : Bool := 200 ≤ s && s ≤ 299

/-- The body of the `try:` block of `make_nws_request`:
`response = await client.get(...)`, `response.raise_for_status()`,
`return response.json()` — each step may raise. -/
def tryBlock : Fetch → Except String Json
  | .netFail => .error "httpx.TransportError"
  | .resp status body =>
    if isSuccessStatus status then
      match body with
      | some j => .ok j
      | none => .error "json.JSONDecodeError"
    else .error "httpx.HTTPStatusError"

/-- `make_nws_request` of `server.py`: the `try/except Exception` wrapper
turns every raised fault into `None`; a total function — it never raises to
its caller. -/
def make_nws_request (f : Fetch) : Option Json :=
  match tryBlock f with
  | .ok j => some j
  | .error _ => none

/-- The URL `get_alerts` builds: `f"{NWS_API_BASE}/alerts/active/area/{state}"`. -/
def alertsUrl (state : String) : String :=
  NWS_API_BASE ++ "/alerts/active/area/" ++ state

/-- The URL `get_forecast` builds:
`f"{NWS_API_BASE}/points/{latitude},{longitude}"`. -/
def pointsUrl (latitude longitude : Int) : String :=
  NWS_API_BASE ++ "/points/" ++ toString latitude ++ "," ++ toString longitude

/-- The error dict of the alerts path: `{"error": "Unable to fetch alerts or
no alerts found."}`. -/
def alertsError : Json :=
  .obj [("error", .str "Unable to fetch alerts or no alerts found.")]

/-- The error dict of the failed points lookup:
`{"error": "Unable to fetch forecast data for this location."}`. -/
def pointsError : Json :=
  .obj [("error", .str "Unable to fetch forecast data for this location.")]

/-- The error dict of the failed forecast-detail lookup:
`{"error": "Unable to fetch detailed forecast."}`. -/
def detailError : Json :=
  .obj [("error", .str "Unable to fetch detailed forecast.")]

/-- Python `state.upper()`: uppercase every character (for the two-letter
ASCII state codes this is exactly ASCII uppercasing). -/
def pyUpper (s : String) : String := String.mk (s.toList.map Char.toUpper)

/-- The loop body of `get_alerts`: `props = feature["properties"]` followed by
the five `props.get(...)` calls with their default strings, building one
alert dict. -/
def mkAlert (feature : Json) : Except String Json :=
  match feature.index "properties" with
  | .error e => .error e
  | .ok props =>
    match props.get "event" (.str "Unknown") with
    | .error e => .error e
    | .ok event =>
      match props.get "areaDesc" (.str "Unknown") with
      | .error e => .error e
      | .ok area =>
        match props.get "severity" (.str "Unknown") with
        | .error e => .error e
        | .ok severity =>
          match props.get "description" (.str "No description available") with
          | .error e => .error e
          | .ok description =>
            match props.get "instruction" (.str "No specific instructions provided") with
            | .error e => .error e
            | .ok instructions =>
              .ok (.obj [("event", event), ("area", area), ("severity", severity),
                         ("description", description), ("instructions", instructions)])

/-- The loop body of `get_forecast`: the six direct `period[...]` index
operations and the field renames building one forecast-period dict. -/
def renamePeriod (period : Json) : Except String Json :=
  match period.index "name" with
  | .error e => .error e
  | .ok name =>
    match period.index "temperature" with
    | .error e => .error e
    | .ok temperature =>
      match period.index "temperatureUnit" with
      | .error e => .error e
      | .ok temperature_unit =>
        match period.index "windSpeed" with
        | .error e => .error e
        | .ok wind_speed =>
          match period.index "windDirection" with
          | .error e => .error e
          | .ok wind_direction =>
            match period.index "detailedForecast" with
            | .error e => .error e
            | .ok detailed_forecast =>
              .ok (.obj [("name", name), ("temperature", temperature),
                         ("temperature_unit", temperature_unit),
                         ("wind_speed", wind_speed),
                         ("wind_direction", wind_direction),
                         ("detailed_forecast", detailed_forecast)])

/-- A Python `for`-loop that appends `g x` for each item in order,
propagating the first raised fault (`alerts.append(...)` /
`forecasts.append(...)` loops of `server.py`). -/
def mapExcept (g : Json → Except String Json) : List Json → Except String (List Json)
  | [] => .ok []
  | x :: xs =>
    match g x with
    | .error e => .error e
    | .ok y =>
      match mapExcept g xs with
      | .error e => .error e
      | .ok ys => .ok (y :: ys)

/-- `get_alerts` of `server.py`, under upstream snapshot `W`.
`Except.error` models an unhandled Python exception escaping the function. -/
def get_alerts (W : String → Fetch) (state : String) : Except String Json :=
  match make_nws_request (W (alertsUrl state)) with
  | none => .ok alertsError
  | some d =>
    if d.truthy = false then .ok alertsError
    else
      match d.hasMember "features" with
      | .error e => .error e
      | .ok false => .ok alertsError
      | .ok true =>
        match d.index "features" with
        | .error e => .error e
        | .ok feats =>
          if feats.truthy = false then
            .ok (.obj [("state", .str (pyUpper state)), ("alerts", .arr []),
                       ("message", .str "No active alerts for this state.")])
          else
            match feats.iterItems with
            | .error e => .error e
            | .ok items =>
              match mapExcept mkAlert items with
              | .error e => .error e
              | .ok alerts =>
                .ok (.obj [("state", .str (pyUpper state)), ("alerts", .arr alerts),
                           ("alert_count", .num alerts.length),
                           ("message", .str ("Found " ++ toString alerts.length
                             ++ " active alert(s) for " ++ pyUpper state))])

/-- `make_nws_request(forecast_url)` where `forecast_url` is an arbitrary
JSON value extracted from the points payload: a non-string URL makes
`client.get` raise inside the helper's `try`, which returns `None`. -/
def fetchByValue (W : String → Fetch) (u : Json) : Option Json :=
  match u with
  | .str s => make_nws_request (W s)
  | _ => none

/-- `get_forecast` of `server.py`, under upstream snapshot `W`.
`Except.error` models an unhandled Python exception escaping the function. -/
def get_forecast (W : String → Fetch) (latitude longitude : Int) : Except String Json :=
  match make_nws_request (W (pointsUrl latitude longitude)) with
  | none => .ok pointsError
  | some pd =>
    if pd.truthy = false then .ok pointsError
    else
      match pd.index "properties" with
      | .error e => .error e
      | .ok props =>
        match props.index "forecast" with
        | .error e => .error e
        | .ok forecast_url =>
          match fetchByValue W forecast_url with
          | none => .ok detailError
          | some fd =>
            if fd.truthy = false then .ok detailError
            else
              match fd.index "properties" with
              | .error e => .error e
              | .ok fprops =>
                match fprops.index "periods" with
                | .error e => .error e
                | .ok periodsJ =>
                  match periodsJ.slice5 with
                  | .error e => .error e
                  | .ok sliced =>
                    match sliced.iterItems with
                    | .error e => .error e
                    | .ok items =>
                      match mapExcept renamePeriod items with
                      | .error e => .error e
                      | .ok forecasts =>
                        .ok (.obj [("location",
                                     .obj [("latitude", .num latitude),
                                           ("longitude", .num longitude)]),
                                   ("forecast_periods", .arr forecasts),
                                   ("summary", .str ("5-day forecast for coordinates "
                                     ++ toString latitude ++ ", " ++ toString longitude))])

/-- One host-visible tool invocation. -/
inductive ToolCall where
  | alerts : String → ToolCall
  | forecast : Int → Int → ToolCall

/-- Dispatch of a single tool invocation. -/
def runCall (W : String → Fetch) : ToolCall → Except String Json
  | .alerts state => get_alerts W state
  | .forecast latitude longitude => get_forecast W latitude longitude

/-- A session: the serving loop handles invocations one at a time; the tools
keep no state between calls, so a session is the per-call results in order. -/
def runSession (W : String → Fetch) (calls : List ToolCall) : List (Except String Json) :=
  calls.map (runCall W)

/-! ### Helper lemmas about the loop combinator and the record builders -/

/-- If the loop body succeeds on every item, the loop returns the pointwise
results, in order. -/
theorem mapExcept_ok_of_forall (g : Json → Except String Json) :
    ∀ (xs : List Json), (∀ x ∈ xs, ∃ y, g x = .ok y) →
      ∃ ys, mapExcept g xs = .ok ys ∧ List.Forall₂ (fun x y => g x = .ok y) xs ys := by
  intro xs
  induction xs with
  | nil => exact fun _ => ⟨[], rfl, List.Forall₂.nil⟩
  | cons a l ih =>
    intro h
    obtain ⟨y, hy⟩ := h a (by simp)
    obtain ⟨ys, hys, hfa⟩ := ih (fun x hx => h x (by simp [hx]))
    exact ⟨y :: ys, by simp [mapExcept, hy, hys], List.Forall₂.cons hy hfa⟩

/-- If the loop body raises on some item, the loop raises. -/
theorem mapExcept_error_of_mem (g : Json → Except String Json) :
    ∀ (xs : List Json) (x : Json) (e : String), x ∈ xs → g x = .error e →
      ∃ er, mapExcept g xs = .error er := by
  intro xs
  induction xs with
  | nil => intro x e hx _; simp at hx
  | cons a l ih =>
    intro x e hx hgx
    rcases List.mem_cons.mp hx with rfl | hxl
    · exact ⟨e, by simp [mapExcept, hgx]⟩
    · rcases ha : g a with e0 | y
      · exact ⟨e0, by simp [mapExcept, ha]⟩
      · obtain ⟨er, her⟩ := ih x e hxl hgx
        exact ⟨er, by simp [mapExcept, ha, her]⟩

/-- When the feature's `properties` value is a dict, the alerts loop body
builds the record with the source's per-field defaults. -/
theorem mkAlert_obj (f : Json) (pf : List (String × Json))
    (h : f.index "properties" = .ok (.obj pf)) :
    mkAlert f = .ok (.obj
      [("event", (lookupKey pf "event").getD (.str "Unknown")),
       ("area", (lookupKey pf "areaDesc").getD (.str "Unknown")),
       ("severity", (lookupKey pf "severity").getD (.str "Unknown")),
       ("description", (lookupKey pf "description").getD (.str "No description available")),
       ("instructions", (lookupKey pf "instruction").getD (.str "No specific instructions provided"))]) := by
  simp [mkAlert, h, Json.get]

/-- The forecast loop body succeeds on a dict period only when all six keys
are present. -/
theorem renamePeriod_ok_hasKeys (pf : List (String × Json)) (v : Json)
    (h : renamePeriod (.obj pf) = .ok v) :
    (lookupKey pf "name").isSome = true ∧ (lookupKey pf "temperature").isSome = true ∧
    (lookupKey pf "temperatureUnit").isSome = true ∧ (lookupKey pf "windSpeed").isSome = true ∧
    (lookupKey pf "windDirection").isSome = true ∧ (lookupKey pf "detailedForecast").isSome = true := by
  rcases h1 : lookupKey pf "name" with _ | a
  · simp [renamePeriod, Json.index, h1] at h
  rcases h2 : lookupKey pf "temperature" with _ | b
  · simp [renamePeriod, Json.index, h1, h2] at h
  rcases h3 : lookupKey pf "temperatureUnit" with _ | c
  · simp [renamePeriod, Json.index, h1, h2, h3] at h
  rcases h4 : lookupKey pf "windSpeed" with _ | d
  · simp [renamePeriod, Json.index, h1, h2, h3, h4] at h
  rcases h5 : lookupKey pf "windDirection" with _ | e5
  · simp [renamePeriod, Json.index, h1, h2, h3, h4, h5] at h
  rcases h6 : lookupKey pf "detailedForecast" with _ | f6
  · simp [renamePeriod, Json.index, h1, h2, h3, h4, h5, h6] at h
  simp [h1, h2, h3, h4, h5, h6]

/-- When all six keys are present in a dict period, the loop body returns
exactly the renamed record. -/
theorem renamePeriod_obj (pf : List (String × Json)) (n t tu w wd df : Json)
    (h1 : lookupKey pf "name" = some n) (h2 : lookupKey pf "temperature" = some t)
    (h3 : lookupKey pf "temperatureUnit" = some tu) (h4 : lookupKey pf "windSpeed" = some w)
    (h5 : lookupKey pf "windDirection" = some wd)
    (h6 : lookupKey pf "detailedForecast" = some df) :
    renamePeriod (.obj pf) = .ok (.obj
      [("name", n), ("temperature", t), ("temperature_unit", tu),
       ("wind_speed", w), ("wind_direction", wd), ("detailed_forecast", df)]) := by
  simp [renamePeriod, Json.index, h1, h2, h3, h4, h5, h6]

/-! ### Claim theorems -/

/-- C5: for every URL, the transport helper `make_nws_request` never raises
to its caller (it is a total function into `Option`): on a transport
failure, a non-2xx HTTP status, or a JSON-parse failure it returns the
no-data value `none`, and on a 2xx response with a parseable body it
returns the parsed JSON payload. -/
theorem make_nws_request_swallows_all_faults :
    (make_nws_request .netFail = none)
    ∧ (∀ (s : Nat) (b : Option Json), isSuccessStatus s = false →
        make_nws_request (.resp s b) = none)
    ∧ (∀ (s : Nat), isSuccessStatus s = true → make_nws_request (.resp s none) = none)
    ∧ (∀ (s : Nat) (j : Json), isSuccessStatus s = true →
        make_nws_request (.resp s (some j)) = some j) := by
  refine ⟨rfl, ?_, ?_, ?_⟩ <;> intros <;> simp [make_nws_request, tryBlock, *]

/-- Witness for C5 at concrete fetch outcomes: a network fault, a 404, a
200 with unparseable body, and a 200 with payload `7`. -/
theorem make_nws_request_swallows_all_faults_witness :
    make_nws_request .netFail = none
    ∧ make_nws_request (.resp 404 (some (.num 1))) = none
    ∧ make_nws_request (.resp 200 none) = none
    ∧ make_nws_request (.resp 200 (some (.num 7))) = some (.num 7) := by
  obtain ⟨h1, h2, h3, h4⟩ := make_nws_request_swallows_all_faults
  exact ⟨h1, h2 404 (some (.num 1)) rfl, h3 200 rfl, h4 200 (.num 7) rfl⟩

/-- C8: determinism / idempotence — under a fixed upstream snapshot `W`, the
result of a tool invocation depends only on the invocation itself, never on
the calls served before it: appending the same call twice to any history
appends the same result twice.  The tools read and write no state that
persists across calls. -/
theorem session_results_history_free (W : String → Fetch)
    (history : List ToolCall) (c : ToolCall) :
    runSession W (history ++ [c, c]) = runSession W history ++ [runCall W c, runCall W c] := by
  simp [runSession]

/-- C6: an upstream alerts payload whose `features` list is empty makes
`get_alerts` return the success dict with the uppercased state, an empty
alerts list and exactly the message `"No active alerts for this state."`. -/
theorem get_alerts_empty_features (W : String → Fetch) (state : String)
    (fs : List (String × Json))
    (hW : make_nws_request (W (alertsUrl state)) = some (.obj fs))
    (hf : lookupKey fs "features" = some (.arr [])) :
    get_alerts W state = .ok (.obj [("state", .str (pyUpper state)), ("alerts", .arr []),
      ("message", .str "No active alerts for this state.")]) := by
  have hne : fs ≠ [] := by
    intro h; rw [h] at hf; simp [lookupKey] at hf
  have htr : (Json.obj fs).truthy = true := by
    simp [Json.truthy, hne]
  simp only [get_alerts, hW, htr]
  simp [Json.hasMember, hf, Json.index, Json.truthy]

/-- Witness for C6: upstream returns `{"features": []}` for state `"fl"`. -/
theorem get_alerts_empty_features_witness :
    get_alerts (fun _ => .resp 200 (some (.obj [("features", .arr [])]))) "fl" =
      .ok (.obj [("state", .str "FL"), ("alerts", .arr []),
        ("message", .str "No active alerts for this state.")]) :=
  get_alerts_empty_features (fun _ => .resp 200 (some (.obj [("features", .arr [])])))
    "fl" [("features", .arr [])] rfl rfl

/-- C7: when the transport helper returns the no-data value, or the payload
dict has no `features` key, `get_alerts` returns the error dict (an explicit
`error` field), not a success dict and not a raised fault. -/
theorem get_alerts_fetch_failure (W : String → Fetch) (state : String)
    (h : make_nws_request (W (alertsUrl state)) = none
      ∨ ∃ fs, make_nws_request (W (alertsUrl state)) = some (.obj fs)
          ∧ lookupKey fs "features" = none) :
    get_alerts W state = .ok alertsError := by
  rcases h with h | ⟨fs, hW, hf⟩
  · simp [get_alerts, h]
  · rcases hfs : fs with _ | ⟨a, l⟩
    · simp [get_alerts, hW, hfs, Json.truthy]
    · have htr : (Json.obj fs).truthy = true := by
        simp [Json.truthy, hfs]
      simp only [get_alerts, hW, htr]
      simp [Json.hasMember, hf]

/-- Witness for C7: a network fault on the alerts URL. -/
theorem get_alerts_fetch_failure_witness :
    get_alerts (fun _ => .netFail) "CA" = .ok alertsError :=
  get_alerts_fetch_failure (fun _ => .netFail) "CA" (Or.inl rfl)

/-- C3: a non-empty `features` list whose entries all carry a `properties`
dict makes `get_alerts` return exactly one record per feature, in upstream
order, each built from the feature's properties with the source's defaults
for absent fields, plus `alert_count` and the summary message. -/
theorem get_alerts_nonempty_features (W : String → Fetch) (state : String)
    (fs : List (String × Json)) (feats : List Json)
    (hW : make_nws_request (W (alertsUrl state)) = some (.obj fs))
    (hf : lookupKey fs "features" = some (.arr feats))
    (hne : feats ≠ [])
    (hprops : ∀ f ∈ feats, ∃ pf, f.index "properties" = .ok (.obj pf)) :
    ∃ alerts, mapExcept mkAlert feats = .ok alerts
      ∧ alerts.length = feats.length
      ∧ List.Forall₂ (fun f a => mkAlert f = .ok a) feats alerts
      ∧ (∀ (f : Json) (pf : List (String × Json)), f.index "properties" = .ok (.obj pf) →
          mkAlert f = .ok (.obj
            [("event", (lookupKey pf "event").getD (.str "Unknown")),
             ("area", (lookupKey pf "areaDesc").getD (.str "Unknown")),
             ("severity", (lookupKey pf "severity").getD (.str "Unknown")),
             ("description", (lookupKey pf "description").getD (.str "No description available")),
             ("instructions",
               (lookupKey pf "instruction").getD (.str "No specific instructions provided"))]))
      ∧ get_alerts W state = .ok (.obj [("state", .str (pyUpper state)),
          ("alerts", .arr alerts), ("alert_count", .num alerts.length),
          ("message", .str ("Found " ++ toString alerts.length
            ++ " active alert(s) for " ++ pyUpper state))]) := by
  have hmk : ∀ f ∈ feats, ∃ y, mkAlert f = .ok y := by
    intro f hfm
    obtain ⟨pf, hpf⟩ := hprops f hfm
    exact ⟨_, mkAlert_obj f pf hpf⟩
  obtain ⟨alerts, hmap, hfa⟩ := mapExcept_ok_of_forall mkAlert feats hmk
  have hlen : alerts.length = feats.length := hfa.length_eq.symm
  refine ⟨alerts, hmap, hlen, hfa, fun f pf h => mkAlert_obj f pf h, ?_⟩
  have hfs_ne : fs ≠ [] := by
    intro h; rw [h] at hf; simp [lookupKey] at hf
  have htr : (Json.obj fs).truthy = true := by simp [Json.truthy, hfs_ne]
  have htr2 : (Json.arr feats).truthy = true := by simp [Json.truthy, hne]
  simp only [get_alerts, hW, htr]
  simp [Json.hasMember, hf, Json.index, htr2, Json.iterItems, hmap]

/-- Witness for C3: one upstream feature whose properties carry only the
`event` field; the other four record fields take their defaults. -/
theorem get_alerts_nonempty_features_witness :
    mapExcept mkAlert [.obj [("properties", .obj [("event", .str "Winter Storm Warning")])]]
      = .ok [.obj [("event", .str "Winter Storm Warning"), ("area", .str "Unknown"),
          ("severity", .str "Unknown"), ("description", .str "No description available"),
          ("instructions", .str "No specific instructions provided")]]
    ∧ get_alerts
        (fun _ => .resp 200 (some (.obj [("features",
          .arr [.obj [("properties", .obj [("event", .str "Winter Storm Warning")])]])])))
        "ca"
      = .ok (.obj [("state", .str "CA"),
          ("alerts", .arr [.obj [("event", .str "Winter Storm Warning"),
            ("area", .str "Unknown"), ("severity", .str "Unknown"),
            ("description", .str "No description available"),
            ("instructions", .str "No specific instructions provided")]]),
          ("alert_count", .num 1),
          ("message", .str "Found 1 active alert(s) for CA")]) := by
  obtain ⟨alerts, hmap, hlen, hfa, hdef, hga⟩ :=
    get_alerts_nonempty_features
      (fun _ => .resp 200 (some (.obj [("features",
        .arr [.obj [("properties", .obj [("event", .str "Winter Storm Warning")])]])])))
      "ca"
      [("features", .arr [.obj [("properties", .obj [("event", .str "Winter Storm Warning")])]])]
      [.obj [("properties", .obj [("event", .str "Winter Storm Warning")])]]
      rfl rfl (by simp)
      (by
        intro f hfm
        rw [List.mem_singleton] at hfm
        subst hfm
        exact ⟨[("event", .str "Winter Storm Warning")], rfl⟩)
  have hc : mapExcept mkAlert
      [.obj [("properties", .obj [("event", .str "Winter Storm Warning")])]]
      = .ok [.obj [("event", .str "Winter Storm Warning"), ("area", .str "Unknown"),
          ("severity", .str "Unknown"), ("description", .str "No description available"),
          ("instructions", .str "No specific instructions provided")]] := rfl
  rw [hmap] at hc
  obtain rfl : alerts = _ := Except.ok.inj hc
  exact ⟨hmap, hga⟩

/-- C9: the alerts path's defaults are per-field only — a feature entry that
lacks the `properties` key makes `get_alerts` raise an unhandled lookup
fault (`feature["properties"]` is indexed with no default) instead of
returning a result. -/
theorem get_alerts_feature_without_properties_raises (W : String → Fetch) (state : String)
    (fs : List (String × Json)) (feats : List Json) (f : Json) (ff : List (String × Json))
    (hW : make_nws_request (W (alertsUrl state)) = some (.obj fs))
    (hf : lookupKey fs "features" = some (.arr feats))
    (hmem : f ∈ feats)
    (hff : f = .obj ff)
    (hnp : lookupKey ff "properties" = none) :
    ∃ e, get_alerts W state = .error e := by
  have hmk : mkAlert f = .error ("KeyError: " ++ "properties") := by
    simp [mkAlert, hff, Json.index, hnp]
  obtain ⟨er, her⟩ := mapExcept_error_of_mem mkAlert feats f _ hmem hmk
  have hfs_ne : fs ≠ [] := by
    intro h; rw [h] at hf; simp [lookupKey] at hf
  have htr : (Json.obj fs).truthy = true := by simp [Json.truthy, hfs_ne]
  have hne : feats ≠ [] := List.ne_nil_of_mem hmem
  have htr2 : (Json.arr feats).truthy = true := by simp [Json.truthy, hne]
  refine ⟨er, ?_⟩
  simp only [get_alerts, hW, htr]
  simp [Json.hasMember, hf, Json.index, htr2, Json.iterItems, her]

/-- Witness for C9: a single feature `{"id": "x"}` with no `properties` key
makes `get_alerts` raise a `KeyError`. -/
theorem get_alerts_feature_without_properties_raises_witness :
    get_alerts (fun _ => .resp 200 (some (.obj [("features",
        .arr [.obj [("id", .str "x")]])]))) "CA"
      = .error "KeyError: properties" := by
  obtain ⟨e, he⟩ :=
    get_alerts_feature_without_properties_raises
      (fun _ => .resp 200 (some (.obj [("features", .arr [.obj [("id", .str "x")]])])))
      "CA"
      [("features", .arr [.obj [("id", .str "x")]])]
      [.obj [("id", .str "x")]]
      (.obj [("id", .str "x")])
      [("id", .str "x")]
      rfl rfl (by simp) rfl rfl
  have hc : get_alerts (fun _ => .resp 200 (some (.obj [("features",
      .arr [.obj [("id", .str "x")]])]))) "CA"
      = .error "KeyError: properties" := rfl
  rw [hc] at he
  exact hc

/-- C4: the two failure exits of `get_forecast` are distinct — a failed
points lookup (no data, or a falsy payload) yields the
`"Unable to fetch forecast data for this location."` dict, a failed
forecast-detail lookup yields the `"Unable to fetch detailed forecast."`
dict, and the two dicts are never equal. -/
theorem get_forecast_two_distinct_errors :
    (∀ (W : String → Fetch) (lat lon : Int),
        make_nws_request (W (pointsUrl lat lon)) = none →
        get_forecast W lat lon = .ok pointsError)
    ∧ (∀ (W : String → Fetch) (lat lon : Int) (pd : Json),
        make_nws_request (W (pointsUrl lat lon)) = some pd → pd.truthy = false →
        get_forecast W lat lon = .ok pointsError)
    ∧ (∀ (W : String → Fetch) (lat lon : Int) (pd props fu : Json),
        make_nws_request (W (pointsUrl lat lon)) = some pd → pd.truthy = true →
        pd.index "properties" = .ok props → props.index "forecast" = .ok fu →
        fetchByValue W fu = none →
        get_forecast W lat lon = .ok detailError)
    ∧ (∀ (W : String → Fetch) (lat lon : Int) (pd props fu fd : Json),
        make_nws_request (W (pointsUrl lat lon)) = some pd → pd.truthy = true →
        pd.index "properties" = .ok props → props.index "forecast" = .ok fu →
        fetchByValue W fu = some fd → fd.truthy = false →
        get_forecast W lat lon = .ok detailError)
    ∧ pointsError ≠ detailError := by
  refine ⟨?_, ?_, ?_, ?_, ?_⟩
  · intro W lat lon h
    simp [get_forecast, h]
  · intro W lat lon pd h htr
    simp [get_forecast, h, htr]
  · intro W lat lon pd props fu h htr hp hf hfv
    simp only [get_forecast, h, htr]
    simp [hp, hf, hfv]
  · intro W lat lon pd props fu fd h htr hp hf hfv htr2
    simp only [get_forecast, h, htr]
    simp [hp, hf, hfv, htr2]
  · simp [pointsError, detailError]

/-- The upstream points payload used by the forecast witnesses: it carries
`properties.forecast` pointing at a fixed gridpoint URL. -/
def pointsPayloadEx : Json :=
  .obj [("properties",
    .obj [("forecast", .str "https://api.weather.gov/gridpoints/MTR/85,105/forecast")])]

/-- Snapshot where every GET fails at the transport level. -/
def W_failPoints : String → Fetch := fun _ => .netFail

/-- Snapshot where the points lookup succeeds but the GET of the forecast
URL fails. -/
def W_failDetail : String → Fetch := fun u =>
  if u = "https://api.weather.gov/gridpoints/MTR/85,105/forecast" then .netFail
  else .resp 200 (some pointsPayloadEx)

/-- Witness for C4: the two failure paths at concrete snapshots, with the
two error dicts distinct. -/
theorem get_forecast_two_distinct_errors_witness :
    get_forecast W_failPoints 37 (-122) = .ok pointsError
    ∧ get_forecast W_failDetail 37 (-122) = .ok detailError
    ∧ pointsError ≠ detailError := by
  obtain ⟨h1, h2, h3, h4, h5⟩ := get_forecast_two_distinct_errors
  exact ⟨h1 W_failPoints 37 (-122) rfl,
    h3 W_failDetail 37 (-122) pointsPayloadEx
      (.obj [("forecast", .str "https://api.weather.gov/gridpoints/MTR/85,105/forecast")])
      (.str "https://api.weather.gov/gridpoints/MTR/85,105/forecast")
      rfl rfl rfl rfl rfl,
    h5⟩

/-- C2: on a fully successful forecast fetch whose payload has
`properties.periods` as a list and whose first five periods the loop body
accepts, `get_forecast` returns exactly the first `min 5 N` upstream
periods, in upstream order, each renamed field-by-field
(`temperatureUnit→temperature_unit`, `windSpeed→wind_speed`,
`windDirection→wind_direction`, `detailedForecast→detailed_forecast`). -/
theorem get_forecast_first_five_periods (W : String → Fetch) (lat lon : Int)
    (pd props fu fd fprops : Json) (ps : List Json)
    (hW : make_nws_request (W (pointsUrl lat lon)) = some pd)
    (htr : pd.truthy = true)
    (hpd : pd.index "properties" = .ok props)
    (hfu : props.index "forecast" = .ok fu)
    (hfd : fetchByValue W fu = some fd)
    (htr2 : fd.truthy = true)
    (hfp : fd.index "properties" = .ok fprops)
    (hper : fprops.index "periods" = .ok (.arr ps))
    (hok : ∀ p ∈ ps.take 5, ∃ v, renamePeriod p = .ok v) :
    ∃ out, mapExcept renamePeriod (ps.take 5) = .ok out
      ∧ List.Forall₂ (fun p v => renamePeriod p = .ok v) (ps.take 5) out
      ∧ out.length = min 5 ps.length
      ∧ out.length ≤ 5
      ∧ (∀ (pf : List (String × Json)) (n t tu w wd df : Json),
          lookupKey pf "name" = some n → lookupKey pf "temperature" = some t →
          lookupKey pf "temperatureUnit" = some tu → lookupKey pf "windSpeed" = some w →
          lookupKey pf "windDirection" = some wd → lookupKey pf "detailedForecast" = some df →
          renamePeriod (.obj pf) = .ok (.obj [("name", n), ("temperature", t),
            ("temperature_unit", tu), ("wind_speed", w), ("wind_direction", wd),
            ("detailed_forecast", df)]))
      ∧ get_forecast W lat lon = .ok (.obj [
          ("location", .obj [("latitude", .num lat), ("longitude", .num lon)]),
          ("forecast_periods", .arr out),
          ("summary", .str ("5-day forecast for coordinates "
            ++ toString lat ++ ", " ++ toString lon))]) := by
  obtain ⟨out, hmap, hfa⟩ := mapExcept_ok_of_forall renamePeriod (ps.take 5) hok
  have hlen : out.length = min 5 ps.length := by
    rw [← List.length_take]
    exact hfa.length_eq.symm
  refine ⟨out, hmap, hfa, hlen, ?_,
    fun pf n t tu w wd df h1 h2 h3 h4 h5 h6 =>
      renamePeriod_obj pf n t tu w wd df h1 h2 h3 h4 h5 h6, ?_⟩
  · rw [hlen]
    exact Nat.min_le_left 5 ps.length
  · simp only [get_forecast, hW, htr]
    simp [hpd, hfu, hfd, htr2, hfp, hper, Json.slice5, Json.iterItems, hmap]

/-- A well-formed upstream forecast period used by the witnesses. -/
def periodEx : Json :=
  .obj [("name", .str "Today"), ("temperature", .num 65), ("temperatureUnit", .str "F"),
        ("windSpeed", .str "10 mph"), ("windDirection", .str "NW"),
        ("detailedForecast", .str "Sunny")]

/-- The renamed record the loop body builds from `periodEx`. -/
def renamedEx : Json :=
  .obj [("name", .str "Today"), ("temperature", .num 65), ("temperature_unit", .str "F"),
        ("wind_speed", .str "10 mph"), ("wind_direction", .str "NW"),
        ("detailed_forecast", .str "Sunny")]

/-- An upstream forecast payload with 14 identical periods. -/
def forecastPayloadEx : Json :=
  .obj [("properties", .obj [("periods", .arr (List.replicate 14 periodEx))])]

/-- Snapshot where the points lookup resolves to `pointsPayloadEx` and its
forecast URL serves `forecastPayloadEx` (14 periods). -/
def W_fourteenPeriods : String → Fetch := fun u =>
  if u = "https://api.weather.gov/gridpoints/MTR/85,105/forecast"
  then .resp 200 (some forecastPayloadEx)
  else .resp 200 (some pointsPayloadEx)

/-- Witness for C2: upstream provides 14 periods, the result carries exactly
the first 5, renamed. -/
theorem get_forecast_first_five_periods_witness :
    mapExcept renamePeriod ((List.replicate 14 periodEx).take 5)
      = .ok (List.replicate 5 renamedEx)
    ∧ get_forecast W_fourteenPeriods 37 (-122) = .ok (.obj [
        ("location", .obj [("latitude", .num 37), ("longitude", .num (-122))]),
        ("forecast_periods", .arr (List.replicate 5 renamedEx)),
        ("summary", .str "5-day forecast for coordinates 37, -122")]) := by
  obtain ⟨out, hmap, hfa, hmin, hle, hren, hgf⟩ :=
    get_forecast_first_five_periods W_fourteenPeriods 37 (-122)
      pointsPayloadEx
      (.obj [("forecast", .str "https://api.weather.gov/gridpoints/MTR/85,105/forecast")])
      (.str "https://api.weather.gov/gridpoints/MTR/85,105/forecast")
      forecastPayloadEx
      (.obj [("periods", .arr (List.replicate 14 periodEx))])
      (List.replicate 14 periodEx)
      rfl rfl rfl rfl rfl rfl rfl rfl
      (by
        intro p hp
        rw [List.take_replicate] at hp
        exact ⟨renamedEx, by rw [List.eq_of_mem_replicate hp]; rfl⟩)
  have hc : mapExcept renamePeriod ((List.replicate 14 periodEx).take 5)
      = .ok (List.replicate 5 renamedEx) := rfl
  rw [hmap] at hc
  obtain rfl : out = List.replicate 5 renamedEx := Except.ok.inj hc
  exact ⟨hmap, hgf⟩

/-- C10: the forecast path has no per-field defaults — if one of the first
five period dicts lacks any of the six expected keys, `get_forecast` raises
an unhandled lookup fault (direct indexing) instead of substituting a
default or returning an error dict. -/
theorem get_forecast_period_missing_key_raises (W : String → Fetch) (lat lon : Int)
    (pd props fu fd fprops : Json) (ps : List Json) (p : Json) (pf : List (String × Json))
    (hW : make_nws_request (W (pointsUrl lat lon)) = some pd)
    (htr : pd.truthy = true)
    (hpd : pd.index "properties" = .ok props)
    (hfu : props.index "forecast" = .ok fu)
    (hfd : fetchByValue W fu = some fd)
    (htr2 : fd.truthy = true)
    (hfp : fd.index "properties" = .ok fprops)
    (hper : fprops.index "periods" = .ok (.arr ps))
    (hmem : p ∈ ps.take 5)
    (hobj : p = .obj pf)
    (hmiss : lookupKey pf "name" = none ∨ lookupKey pf "temperature" = none
      ∨ lookupKey pf "temperatureUnit" = none ∨ lookupKey pf "windSpeed" = none
      ∨ lookupKey pf "windDirection" = none ∨ lookupKey pf "detailedForecast" = none) :
    ∃ e, get_forecast W lat lon = .error e := by
  subst hobj
  have hrp : ∃ e0, renamePeriod (.obj pf) = .error e0 := by
    rcases hre : renamePeriod (.obj pf) with e0 | v
    · exact ⟨e0, rfl⟩
    · exfalso
      obtain ⟨k1, k2, k3, k4, k5, k6⟩ := renamePeriod_ok_hasKeys pf v hre
      rcases hmiss with h | h | h | h | h | h
      · rw [h] at k1; simp at k1
      · rw [h] at k2; simp at k2
      · rw [h] at k3; simp at k3
      · rw [h] at k4; simp at k4
      · rw [h] at k5; simp at k5
      · rw [h] at k6; simp at k6
  obtain ⟨e0, he0⟩ := hrp
  obtain ⟨er, her⟩ := mapExcept_error_of_mem renamePeriod (ps.take 5) (.obj pf) e0 hmem he0
  refine ⟨er, ?_⟩
  simp only [get_forecast, hW, htr]
  simp [hpd, hfu, hfd, htr2, hfp, hper, Json.slice5, Json.iterItems, her]

/-- An upstream forecast payload whose single period lacks `temperature`. -/
def badForecastPayloadEx : Json :=
  .obj [("properties", .obj [("periods", .arr [.obj [("name", .str "Today")]])])]

/-- Snapshot where the points lookup resolves to `pointsPayloadEx` and its
forecast URL serves `badForecastPayloadEx`. -/
def W_badPeriod : String → Fetch := fun u =>
  if u = "https://api.weather.gov/gridpoints/MTR/85,105/forecast"
  then .resp 200 (some badForecastPayloadEx)
  else .resp 200 (some pointsPayloadEx)

/-- Witness for C10: the period `{"name": "Today"}` makes `get_forecast`
raise `KeyError: temperature`. -/
theorem get_forecast_period_missing_key_raises_witness :
    get_forecast W_badPeriod 37 (-122) = .error "KeyError: temperature" := by
  obtain ⟨e, he⟩ :=
    get_forecast_period_missing_key_raises W_badPeriod 37 (-122)
      pointsPayloadEx
      (.obj [("forecast", .str "https://api.weather.gov/gridpoints/MTR/85,105/forecast")])
      (.str "https://api.weather.gov/gridpoints/MTR/85,105/forecast")
      badForecastPayloadEx
      (.obj [("periods", .arr [.obj [("name", .str "Today")]])])
      [.obj [("name", .str "Today")]]
      (.obj [("name", .str "Today")])
      [("name", .str "Today")]
      rfl rfl rfl rfl rfl rfl rfl rfl (by simp) rfl
      (Or.inr (Or.inl rfl))
  have hc : get_forecast W_badPeriod 37 (-122) = .error "KeyError: temperature" := rfl
  rw [hc] at he
  exact hc

/-- Snapshot where the points lookup returns a truthy payload that has no
`properties` key (hence no forecast URL). -/
def W_noForecastUrl : String → Fetch := fun _ =>
  .resp 200 (some (.obj [("status", .num 200)]))

/-- C1 counterexample: against an upstream points response lacking a
forecast URL, `get_forecast(37, -122)` does NOT return a well-formed error
dict — the unguarded `points_data["properties"]["forecast"]` raises an
unhandled `KeyError`, refuting the claim as stated. -/
theorem get_forecast_missing_forecast_url_counterexample :
    make_nws_request (W_noForecastUrl (pointsUrl 37 (-122)))
      = some (.obj [("status", .num 200)])
    ∧ (Json.obj [("status", .num 200)]).truthy = true
    ∧ lookupKey [("status", Json.num 200)] "properties" = none
    ∧ get_forecast W_noForecastUrl 37 (-122) = .error "KeyError: properties" :=
  ⟨rfl, rfl, rfl, rfl⟩

/-- C1 amended: when the points lookup succeeds (truthy payload) but the
payload lacks `properties`, or `properties` lacks `forecast`, `get_forecast`
raises the unhandled lookup fault from the extraction — it propagates the
fault instead of returning a result. -/
theorem get_forecast_missing_forecast_url_raises (W : String → Fetch) (lat lon : Int)
    (pd : Json)
    (hW : make_nws_request (W (pointsUrl lat lon)) = some pd)
    (htr : pd.truthy = true) :
    (∀ e, pd.index "properties" = .error e → get_forecast W lat lon = .error e)
    ∧ (∀ props e, pd.index "properties" = .ok props → props.index "forecast" = .error e →
        get_forecast W lat lon = .error e) := by
  constructor
  · intro e he
    simp only [get_forecast, hW, htr]
    simp [he]
  · intro props e hpd he
    simp only [get_forecast, hW, htr]
    simp [hpd, he]

/-- Witness for the amended C1 at the counterexample snapshot. -/
theorem get_forecast_missing_forecast_url_raises_witness :
    get_forecast W_noForecastUrl 37 (-122) = .error "KeyError: properties" :=
  (get_forecast_missing_forecast_url_raises W_noForecastUrl 37 (-122)
    (.obj [("status", .num 200)]) rfl rfl).1 "KeyError: properties" rfl
